import Mathlib

/-!
Verification of the group state machine of pg_auto_failover
(src/monitor/group_state_machine.c) against its specification.

The decision engine `ProceedGroupState` is embedded as a pure Lean
function from a group snapshot (a list of node records), the reporting
node, the formation record and an environment (clock readings and GUC
settings) to an `EngineResult`: either an error (the C code raises
`ereport(ERROR)` when the primary node cannot be located) or a boolean
return value together with the ordered list of goal-state assignments
performed by `AssignGoalState`.

Helper predicates that are referenced by the C file but whose bodies
live outside the sources at hand (`IsCurrentState`, `IsInPrimaryState`,
`GetPrimaryNodeInGroup`, `AutoFailoverOtherNodesList`,
`IsCitusFormation`) are modelled from the specification, as their doc
comments state.
-/

namespace PgAutoFailover

/-- The closed enumeration of node lifecycle states (`ReplicationState`
in replication_state.h, described in the data-model section of the
specification). -/
inductive ReplicationState where
  | single
  | wait_primary
  | primary
  | join_primary
  | apply_settings
  | wait_standby
  | catchingup
  | secondary
  | prepare_promotion
  | stop_replication
  | demote_timeout
  | draining
  | demoted
  deriving DecidableEq

/-- Node health as recorded by the external health probe
(`NODE_HEALTH_GOOD` / `NODE_HEALTH_BAD` / unknown). -/
inductive NodeHealth where
  | good
  | bad
  | unknown
  deriving DecidableEq

/-- Formation kind: a plain PostgreSQL formation or a sharded (Citus)
formation; consulted by `IsCitusFormation`. -/
inductive FormationKind where
  | pgsql
  | citus
  deriving DecidableEq

/-- The fields of `AutoFailoverNode` that the decision engine reads.
Fields used only to format log messages (node name, port, formation id,
sync-state tag) are omitted; they do not influence any decision.
Timestamps are in microseconds, LSNs are opaque 64-bit log positions. -/
structure AutoFailoverNode where
  nodeId : Nat
  groupId : Int
  reportedState : ReplicationState
  goalState : ReplicationState
  reportedLSN : Int
  candidatePriority : Int
  replicationQuorum : Bool
  health : NodeHealth
  pgIsRunning : Bool
  reportTime : Int
  healthCheckTime : Int
  stateChangeTime : Int
  deriving DecidableEq

/-- The fields of `AutoFailoverFormation` read by the engine: only the
formation kind is consulted (by rules R5 and R8). -/
structure AutoFailoverFormation where
  kind : FormationKind
  deriving DecidableEq

/-- Clock readings and GUC settings that the engine's predicates read:
`GetCurrentTimestamp()`, `PgStartTime`, and the five GUC variables
declared at the top of group_state_machine.c.  Timestamps are in
microseconds, the timeout GUCs in milliseconds, the thresholds in
bytes. -/
structure MonitorEnv where
  now : Int
  pgStartTime : Int
  enableSyncXlogThreshold : Int
  promoteXlogThreshold : Int
  drainTimeoutMs : Int
  unhealthyTimeoutMs : Int
  startupGracePeriodMs : Int
  deriving DecidableEq

/-- PostgreSQL's `TimestampDifferenceExceeds(start, stop, msec)`:
whether `stop - start` (microseconds) exceeds `msec` milliseconds. -/
def timestampDifferenceExceeds (startTime stopTime msec : Int) : Bool :=
  decide (stopTime - startTime > msec * 1000)

/-- Modelled from the spec: the "primary-like" set of states,
`{single, wait_primary, primary, join_primary, apply_settings}`. -/
def isPrimaryLikeState (s : ReplicationState) : Bool :=
  match s with
  | .single => true
  | .wait_primary => true
  | .primary => true
  | .join_primary => true
  | .apply_settings => true
  | _ => false

/-- Modelled from the spec: `IsCurrentState(n, s)` must be defined as
`n.reportedState = s ∧ n.goalState = s`, i.e. the node has converged
to `s`. -/
def IsCurrentState (n : AutoFailoverNode) (s : ReplicationState) : Bool :=
  decide (n.reportedState = s) && decide (n.goalState = s)

/-- Modelled from the spec: a node is primary-like when its
`reportedState` or `goalState` is in the primary-like set; this is the
predicate by which the current primary-like node of a group is found,
and by which the engine decides whether the reporting node takes the
primary-side rules. -/
def IsInPrimaryState (n : AutoFailoverNode) : Bool :=
  isPrimaryLikeState n.reportedState || isPrimaryLikeState n.goalState

/-- Modelled from the spec: the current primary-like node of the group
is found by scanning the group's nodes for one whose `reportedState`
or `goalState` is in the primary-like set; absent such a node the scan
comes back empty. -/
def GetPrimaryNodeInGroup (nodes : List AutoFailoverNode) :
    Option AutoFailoverNode :=
  nodes.find? IsInPrimaryState

/-- Modelled from the spec: the set `O` of other nodes of the group,
every node of the group snapshot except the given one. -/
def AutoFailoverOtherNodesList (nodes : List AutoFailoverNode)
    (n : AutoFailoverNode) : List AutoFailoverNode :=
  nodes.filter (fun m => decide (m.nodeId ≠ n.nodeId))

/-- Modelled from the spec: a formation is a Citus (sharded) formation
when its kind tag says so. -/
def IsCitusFormation (f : AutoFailoverFormation) : Bool :=
  decide (f.kind = FormationKind.citus)

/-- Reinterpretation of a uint64 quantity (given by its value modulo
2^64) as a signed two's-complement 64-bit integer, as the C conversion
from uint64 to int64 behaves on the supported platforms. -/
def uint64ToInt64 (x : Int) : Int :=
  if x % (2 ^ 64 : Int) < 2 ^ 63 then x % (2 ^ 64 : Int)
  else x % (2 ^ 64 : Int) - 2 ^ 64

/-- `WalDifferenceWithin` from group_state_machine.c: whether the most
recently reported log positions of the two nodes are within `delta`.
Returns true when either node pointer is NULL; returns false when
either reported LSN is zero.  The LSNs are `XLogRecPtr` (uint64): the
subtraction `otherNodeLsn - secondaryLsn` wraps modulo 2^64, the `Abs`
macro expands to `(x) >= 0 ? (x) : -(x)` and is the identity on the
unsigned result, and the assignment to the int64 `walDifference`
reinterprets the wrapped value as a signed 64-bit integer, which is
then compared with `delta`. -/
def WalDifferenceWithin (secondaryNode otherNode : Option AutoFailoverNode)
    (delta : Int) : Bool :=
  match secondaryNode, otherNode with
  | none, _ => true
  | _, none => true
  | some sn, some pn =>
    let secondaryLsn := sn.reportedLSN
    let otherNodeLsn := pn.reportedLSN
    if secondaryLsn = 0 || otherNodeLsn = 0 then
      false
    else
      decide (uint64ToInt64 (otherNodeLsn - secondaryLsn) ≤ delta)

/-- `IsHealthy` from group_state_machine.c: the last health check
succeeded and PostgreSQL is reported as running. -/
def IsHealthy (node : Option AutoFailoverNode) : Bool :=
  match node with
  | none => false
  | some n => decide (n.health = NodeHealth.good) && n.pgIsRunning

/-- `IsUnhealthy` from group_state_machine.c.  The C body is a nest of
ifs that returns true when (a) the keeper has not reported for more
than `UnhealthyTimeoutMs` and the health check is bad and was taken
after `PgStartTime` and the startup grace period has elapsed, or
(b) the keeper reports PostgreSQL as not running; a NULL node is
unhealthy. -/
def IsUnhealthy (env : MonitorEnv) (node : Option AutoFailoverNode) : Bool :=
  match node with
  | none => true
  | some n =>
    (timestampDifferenceExceeds n.reportTime env.now env.unhealthyTimeoutMs &&
      (decide (n.health = NodeHealth.bad) &&
        timestampDifferenceExceeds env.pgStartTime n.healthCheckTime 0) &&
      timestampDifferenceExceeds env.pgStartTime env.now
        env.startupGracePeriodMs) ||
    !n.pgIsRunning

/-- `IsDrainTimeExpired` from group_state_machine.c: the node's goal
state is `demote_timeout` and more than `DrainTimeoutMs` elapsed since
its last goal-state change. -/
def IsDrainTimeExpired (env : MonitorEnv)
    (node : Option AutoFailoverNode) : Bool :=
  match node with
  | none => false
  | some n =>
    decide (n.goalState = ReplicationState.demote_timeout) &&
    timestampDifferenceExceeds n.stateChangeTime env.now env.drainTimeoutMs

/-- One goal-state assignment performed by `AssignGoalState`: the
target node (by id) and its new goal state. -/
structure Assignment where
  nodeId : Nat
  newGoalState : ReplicationState
  deriving DecidableEq

/-- Result of one engine invocation: `error` models the
`ereport(ERROR, ...)` raised when the primary node cannot be located
(no assignment is persisted); `ok b as` models a normal return of the
boolean `b` after performing the assignments `as` in order. -/
inductive EngineResult where
  | error
  | ok (proceeded : Bool) (assignments : List Assignment)
  deriving DecidableEq

/-- The assignments actually performed by an invocation; an aborted
(error) invocation performs none. -/
def resultAssignments : EngineResult → List Assignment
  | .error => []
  | .ok _ as => as

/-- The standby-health bookkeeping loop of
`ProceedGroupStateForPrimaryNode` (rule R12): walk the other nodes
once, with `failoverCandidateCount` starting from the number of other
nodes; an unhealthy converged secondary is assigned `catchingup` and
decrements the count, a node with `replicationQuorum = false` or
`candidatePriority = 0` decrements the count; after each node, if the
count reached zero the primary is assigned `wait_primary`. -/
def r12Loop (env : MonitorEnv) (primaryNode : AutoFailoverNode)
    (others : List AutoFailoverNode) (failoverCandidateCount : Int) :
    List Assignment :=
  match others with
  | [] => []
  | otherNode :: rest =>
    if IsCurrentState otherNode ReplicationState.secondary &&
        IsUnhealthy env (some otherNode) then
      Assignment.mk otherNode.nodeId ReplicationState.catchingup ::
        ((if failoverCandidateCount - 1 = 0 then
            [Assignment.mk primaryNode.nodeId ReplicationState.wait_primary]
          else []) ++
          r12Loop env primaryNode rest (failoverCandidateCount - 1))
    else if !otherNode.replicationQuorum ||
        decide (otherNode.candidatePriority = 0) then
      (if failoverCandidateCount - 1 = 0 then
        [Assignment.mk primaryNode.nodeId ReplicationState.wait_primary]
      else []) ++
        r12Loop env primaryNode rest (failoverCandidateCount - 1)
    else
      (if failoverCandidateCount = 0 then
        [Assignment.mk primaryNode.nodeId ReplicationState.wait_primary]
      else []) ++
        r12Loop env primaryNode rest failoverCandidateCount

/-- `ProceedGroupStateForPrimaryNode` from group_state_machine.c: the
FSM branch taken when the reporting node is in a primary state.  The
group snapshot is passed in; the other-nodes list is derived from it
as in `AutoFailoverOtherNodesList`. -/
def ProceedGroupStateForPrimaryNode (env : MonitorEnv)
    (nodes : List AutoFailoverNode) (primaryNode : AutoFailoverNode) :
    EngineResult :=
  /- single ➜ wait_primary, when a first other node reports wait_standby -/
  if IsCurrentState primaryNode ReplicationState.single &&
      (AutoFailoverOtherNodesList nodes primaryNode).any
        (fun o => IsCurrentState o ReplicationState.wait_standby) then
    EngineResult.ok true
      [Assignment.mk primaryNode.nodeId ReplicationState.wait_primary]
  /- primary ➜ join_primary, when another node reports wait_standby -/
  else if IsCurrentState primaryNode ReplicationState.primary &&
      (AutoFailoverOtherNodesList nodes primaryNode).any
        (fun o => IsCurrentState o ReplicationState.wait_standby) then
    EngineResult.ok true
      [Assignment.mk primaryNode.nodeId ReplicationState.join_primary]
  /- standby-health bookkeeping loop; the C block returns true
     unconditionally after the loop -/
  else if IsCurrentState primaryNode ReplicationState.primary then
    EngineResult.ok true
      (r12Loop env primaryNode (AutoFailoverOtherNodesList nodes primaryNode)
        ((AutoFailoverOtherNodesList nodes primaryNode).length : Int))
  /- apply_settings ➜ primary -/
  else if IsCurrentState primaryNode ReplicationState.apply_settings then
    EngineResult.ok true
      [Assignment.mk primaryNode.nodeId ReplicationState.primary]
  else
    EngineResult.ok false []

/-- `ProceedGroupState` from group_state_machine.c: the decision engine
for one report.  `nodes` is the group snapshot
(`AutoFailoverNodeGroup`), `activeNode` the reporting node. -/
def ProceedGroupState (env : MonitorEnv) (formation : AutoFailoverFormation)
    (nodes : List AutoFailoverNode) (activeNode : AutoFailoverNode) :
    EngineResult :=
  /- when there is no other node anymore, not even one -/
  if decide (nodes.length = 1) &&
      !IsCurrentState activeNode ReplicationState.single then
    EngineResult.ok true
      [Assignment.mk activeNode.nodeId ReplicationState.single]
  else if IsInPrimaryState activeNode then
    ProceedGroupStateForPrimaryNode env nodes activeNode
  else
    match GetPrimaryNodeInGroup nodes with
    | none =>
      /- ereport(ERROR): couldn't find the primary node -/
      EngineResult.error
    | some primaryNode =>
      /- wait_standby ➜ catchingup -/
      if IsCurrentState activeNode ReplicationState.wait_standby &&
          (IsCurrentState primaryNode ReplicationState.wait_primary ||
            IsCurrentState primaryNode ReplicationState.join_primary) then
        EngineResult.ok true
          [Assignment.mk activeNode.nodeId ReplicationState.catchingup]
      /- catchingup ➜ secondary, wait_primary ➜ primary -/
      else if IsCurrentState activeNode ReplicationState.catchingup &&
          (IsCurrentState primaryNode ReplicationState.wait_primary ||
            IsCurrentState primaryNode ReplicationState.join_primary) &&
          IsHealthy (some activeNode) &&
          WalDifferenceWithin (some activeNode) (some primaryNode)
            env.enableSyncXlogThreshold then
        EngineResult.ok true
          [Assignment.mk activeNode.nodeId ReplicationState.secondary,
           Assignment.mk primaryNode.nodeId ReplicationState.primary]
      /- secondary ➜ prepare_promotion, primary ➜ draining -/
      else if IsCurrentState activeNode ReplicationState.secondary &&
          IsInPrimaryState primaryNode &&
          IsUnhealthy env (some primaryNode) &&
          IsHealthy (some activeNode) &&
          WalDifferenceWithin (some activeNode) (some primaryNode)
            env.promoteXlogThreshold then
        EngineResult.ok true
          [Assignment.mk activeNode.nodeId ReplicationState.prepare_promotion,
           Assignment.mk primaryNode.nodeId ReplicationState.draining]
      /- prepare_promotion ➜ wait_primary (sharded short-cut) -/
      else if IsCurrentState activeNode ReplicationState.prepare_promotion &&
          IsCitusFormation formation && decide (activeNode.groupId > 0) then
        EngineResult.ok true
          [Assignment.mk activeNode.nodeId ReplicationState.wait_primary,
           Assignment.mk primaryNode.nodeId ReplicationState.demoted]
      /- prepare_promotion ➜ stop_replication, primary ➜ demote_timeout -/
      else if IsCurrentState activeNode ReplicationState.prepare_promotion then
        EngineResult.ok true
          [Assignment.mk activeNode.nodeId ReplicationState.stop_replication,
           Assignment.mk primaryNode.nodeId ReplicationState.demote_timeout]
      /- stop_replication ➜ wait_primary, primary ➜ demoted -/
      else if IsCurrentState activeNode ReplicationState.stop_replication &&
          (IsCurrentState primaryNode ReplicationState.demote_timeout ||
            IsDrainTimeExpired env (some primaryNode)) then
        EngineResult.ok true
          [Assignment.mk activeNode.nodeId ReplicationState.wait_primary,
           Assignment.mk primaryNode.nodeId ReplicationState.demoted]
      /- stop_replication ➜ wait_primary (sharded short-cut) -/
      else if IsCurrentState activeNode ReplicationState.stop_replication &&
          IsCitusFormation formation && decide (activeNode.groupId > 0) then
        EngineResult.ok true
          [Assignment.mk activeNode.nodeId ReplicationState.wait_primary,
           Assignment.mk primaryNode.nodeId ReplicationState.demoted]
      /- demoted ➜ catchingup -/
      else if IsCurrentState activeNode ReplicationState.demoted &&
          IsCurrentState primaryNode ReplicationState.wait_primary then
        EngineResult.ok true
          [Assignment.mk activeNode.nodeId ReplicationState.catchingup]
      else
        EngineResult.ok false []

/-- Apply one goal-state assignment to a snapshot: the node carrying
the assigned id gets the new goal state. -/
def applyAssignment (nodes : List AutoFailoverNode) (a : Assignment) :
    List AutoFailoverNode :=
  nodes.map (fun n =>
    if n.nodeId = a.nodeId then { n with goalState := a.newGoalState } else n)

/-- Apply a list of assignments in order. -/
def applyAssignments (nodes : List AutoFailoverNode)
    (assignments : List Assignment) : List AutoFailoverNode :=
  assignments.foldl applyAssignment nodes

/-- The number of nodes of a snapshot whose goal state is
primary-like. -/
def primaryLikeGoalCount (nodes : List AutoFailoverNode) : Nat :=
  nodes.countP (fun n => isPrimaryLikeState n.goalState)

/-- An assignment whose new goal state is primary-like. -/
def isPrimaryLikeAssignment (a : Assignment) : Bool :=
  isPrimaryLikeState a.newGoalState

/-- Folding all assignments over a single node: the node's goal state
after the invocation. -/
def applyAll (assignments : List Assignment) (n : AutoFailoverNode) :
    AutoFailoverNode :=
  assignments.foldl
    (fun m a =>
      if m.nodeId = a.nodeId then { m with goalState := a.newGoalState }
      else m) n

theorem applyAssignments_eq_map (assignments : List Assignment) :
    ∀ nodes, applyAssignments nodes assignments =
      nodes.map (applyAll assignments) := by
  induction assignments with
  | nil =>
    intro nodes
    show nodes = nodes.map (fun n => n)
    exact (List.map_id' nodes).symm
  | cons a rest ih =>
    intro nodes
    have h1 : applyAssignments nodes (a :: rest) =
        applyAssignments (applyAssignment nodes a) rest := rfl
    rw [h1, ih, applyAssignment, List.map_map]
    rfl

theorem applyAll_nodeId (assignments : List Assignment) :
    ∀ n, (applyAll assignments n).nodeId = n.nodeId := by
  induction assignments with
  | nil => intro n; rfl
  | cons a rest ih =>
    intro n
    have h1 : applyAll (a :: rest) n =
        applyAll rest
          (if n.nodeId = a.nodeId then { n with goalState := a.newGoalState }
           else n) := rfl
    rw [h1, ih]
    by_cases h : n.nodeId = a.nodeId <;> simp [h]

theorem applyAll_goal_cases (assignments : List Assignment) :
    ∀ n, isPrimaryLikeState (applyAll assignments n).goalState = true →
      isPrimaryLikeState n.goalState = true ∨
        ∃ a ∈ assignments, a.nodeId = n.nodeId ∧
          isPrimaryLikeState a.newGoalState = true := by
  induction assignments with
  | nil => intro n h; exact Or.inl h
  | cons a rest ih =>
    intro n h
    have h1 : applyAll (a :: rest) n =
        applyAll rest
          (if n.nodeId = a.nodeId then { n with goalState := a.newGoalState }
           else n) := rfl
    rw [h1] at h
    by_cases hid : n.nodeId = a.nodeId
    · rw [if_pos hid] at h
      rcases ih _ h with h2 | ⟨a', ha', hid', hpl'⟩
      · exact Or.inr ⟨a, List.mem_cons_self a rest, hid.symm, h2⟩
      · exact Or.inr ⟨a', List.mem_cons_of_mem a ha', hid', hpl'⟩
    · rw [if_neg hid] at h
      rcases ih _ h with h2 | ⟨a', ha', hid', hpl'⟩
      · exact Or.inl h2
      · exact Or.inr ⟨a', List.mem_cons_of_mem a ha', hid', hpl'⟩

theorem countP_le_one_of_id {p : AutoFailoverNode → Bool} (tid : Nat) :
    ∀ {nodes : List AutoFailoverNode},
      (nodes.map AutoFailoverNode.nodeId).Nodup →
      (∀ n ∈ nodes, p n = true → n.nodeId = tid) →
      nodes.countP p ≤ 1 := by
  intro nodes
  induction nodes with
  | nil => intro _ _; simp
  | cons x xs ih =>
    intro hnd h
    rw [List.map_cons, List.nodup_cons] at hnd
    rw [List.countP_cons]
    by_cases hx : p x = true
    · have hxid : x.nodeId = tid := h x (List.mem_cons_self x xs) hx
      have hzero : xs.countP p = 0 := by
        rw [List.countP_eq_zero]
        intro n hn hpn
        have : n.nodeId = tid := h n (List.mem_cons_of_mem x hn) hpn
        exact hnd.1 (by
          rw [← hxid] at this
          exact this ▸ List.mem_map_of_mem AutoFailoverNode.nodeId hn)
      simp [hzero, hx]
    · have hle := ih hnd.2 (fun n hn hpn => h n (List.mem_cons_of_mem x hn) hpn)
      simp only [hx]
      simpa using hle

theorem eq_of_countP_le_one {α : Type} {l : List α} {p : α → Bool}
    (h : l.countP p ≤ 1) {a b : α} (ha : a ∈ l) (hb : b ∈ l)
    (hpa : p a = true) (hpb : p b = true) : a = b := by
  by_contra hne
  induction l with
  | nil => exact absurd ha (List.not_mem_nil a)
  | cons x xs ih =>
    rw [List.countP_cons] at h
    rcases List.mem_cons.mp ha with rfl | ha'
    · rcases List.mem_cons.mp hb with rfl | hb'
      · exact hne rfl
      · have hpos : 0 < xs.countP p := List.countP_pos.mpr ⟨b, hb', hpb⟩
        rw [if_pos hpa] at h
        omega
    · rcases List.mem_cons.mp hb with rfl | hb'
      · have hpos : 0 < xs.countP p := List.countP_pos.mpr ⟨a, ha', hpa⟩
        rw [if_pos hpb] at h
        omega
      · have hle : xs.countP p ≤ 1 := le_trans (Nat.le_add_right _ _) h
        exact ih hle ha' hb'

theorem eq_of_mem_nodupIds {a b : AutoFailoverNode} :
    ∀ {l : List AutoFailoverNode},
      (l.map AutoFailoverNode.nodeId).Nodup →
      a ∈ l → b ∈ l → a.nodeId = b.nodeId → a = b := by
  intro l
  induction l with
  | nil => intro _ ha; exact absurd ha (List.not_mem_nil a)
  | cons x xs ih =>
    intro hnd ha hb hid
    rw [List.map_cons, List.nodup_cons] at hnd
    rcases List.mem_cons.mp ha with rfl | ha'
    · rcases List.mem_cons.mp hb with rfl | hb'
      · rfl
      · exact absurd
          (hid.symm ▸ List.mem_map_of_mem AutoFailoverNode.nodeId hb')
          hnd.1
    · rcases List.mem_cons.mp hb with rfl | hb'
      · exact absurd
          (hid ▸ List.mem_map_of_mem AutoFailoverNode.nodeId ha')
          hnd.1
      · exact ih hnd.2 ha' hb' hid

/-- The condition under which a node of the R12 loop decrements the
failover-candidate count: it is an unhealthy converged secondary
(first branch) or it is not a quorum candidate (second branch). -/
def r12Decrements (env : MonitorEnv) (o : AutoFailoverNode) : Bool :=
  (IsCurrentState o ReplicationState.secondary && IsUnhealthy env (some o)) ||
    (!o.replicationQuorum || decide (o.candidatePriority = 0))

theorem r12Loop_mem (env : MonitorEnv) (primaryNode : AutoFailoverNode) :
    ∀ (others : List AutoFailoverNode) (cnt : Int),
      ∀ a ∈ r12Loop env primaryNode others cnt,
        a.newGoalState = ReplicationState.catchingup ∨
          (a.nodeId = primaryNode.nodeId ∧
            a.newGoalState = ReplicationState.wait_primary) := by
  intro others
  induction others with
  | nil => intro cnt a ha; simp [r12Loop] at ha
  | cons o rest ih =>
    intro cnt a ha
    simp only [r12Loop] at ha
    split at ha
    · rcases List.mem_cons.mp ha with rfl | ha'
      · exact Or.inl rfl
      · rcases List.mem_append.mp ha' with hfire | hrec
        · split at hfire
          · rcases List.mem_singleton.mp hfire with rfl
            exact Or.inr ⟨rfl, rfl⟩
          · exact absurd hfire (List.not_mem_nil a)
        · exact ih _ a hrec
    split at ha
    · rcases List.mem_append.mp ha with hfire | hrec
      · split at hfire
        · rcases List.mem_singleton.mp hfire with rfl
          exact Or.inr ⟨rfl, rfl⟩
        · exact absurd hfire (List.not_mem_nil a)
      · exact ih _ a hrec
    · rcases List.mem_append.mp ha with hfire | hrec
      · split at hfire
        · rcases List.mem_singleton.mp hfire with rfl
          exact Or.inr ⟨rfl, rfl⟩
        · exact absurd hfire (List.not_mem_nil a)
      · exact ih _ a hrec

theorem r12Loop_countPL (env : MonitorEnv) (primaryNode : AutoFailoverNode) :
    ∀ (others : List AutoFailoverNode) (cnt : Int),
      (others.length : Int) ≤ cnt →
      (r12Loop env primaryNode others cnt).countP isPrimaryLikeAssignment ≤
        1 := by
  intro others
  induction others with
  | nil => intro cnt _; simp [r12Loop]
  | cons o rest ih =>
    intro cnt h
    have hlen : (rest.length : Int) + 1 ≤ cnt := by
      rw [List.length_cons] at h
      omega
    simp only [r12Loop]
    split
    · rw [List.countP_cons, List.countP_append]
      have hcg :
          isPrimaryLikeAssignment
            (Assignment.mk o.nodeId ReplicationState.catchingup) = false := rfl
      rw [hcg]
      split
      · next hz =>
        have hrest : rest = [] := by
          have : (rest.length : Int) ≤ 0 := by omega
          have : rest.length = 0 := by omega
          exact List.length_eq_zero.mp this
        subst hrest
        simp [r12Loop, List.countP_cons, isPrimaryLikeAssignment,
          isPrimaryLikeState]
      · have := ih (cnt - 1) (by omega)
        simpa using this
    split
    · rw [List.countP_append]
      split
      · next hz =>
        have hrest : rest = [] := by
          have : rest.length = 0 := by omega
          exact List.length_eq_zero.mp this
        subst hrest
        simp [r12Loop, List.countP_cons, isPrimaryLikeAssignment,
          isPrimaryLikeState]
      · have := ih (cnt - 1) (by omega)
        simpa using this
    · rw [List.countP_append]
      have hz : ¬cnt = 0 := by omega
      rw [if_neg hz]
      have := ih cnt (by omega)
      simpa using this

theorem r12Loop_fire_of_all (env : MonitorEnv)
    (primaryNode : AutoFailoverNode) :
    ∀ (others : List AutoFailoverNode),
      others ≠ [] → (∀ o ∈ others, r12Decrements env o = true) →
      Assignment.mk primaryNode.nodeId ReplicationState.wait_primary ∈
        r12Loop env primaryNode others (others.length : Int) := by
  intro others
  induction others with
  | nil => intro h; exact absurd rfl h
  | cons o rest ih =>
    intro _ hall
    have ho : r12Decrements env o = true := hall o (List.mem_cons_self o rest)
    have hcnt : ((o :: rest).length : Int) - 1 = (rest.length : Int) := by
      rw [List.length_cons]; omega
    simp only [r12Loop]
    rw [r12Decrements, Bool.or_eq_true] at ho
    rcases ho with h1 | h2
    · rw [if_pos h1, hcnt]
      by_cases hr : rest = []
      · subst hr
        simp
      · have hne : ¬(rest.length : Int) = 0 := by
          have := List.length_pos.mpr hr
          omega
        rw [if_neg hne]
        have := ih hr (fun o' ho' => hall o' (List.mem_cons_of_mem o ho'))
        exact List.mem_cons_of_mem _ (List.mem_append_right _ this)
    · by_cases h1 : (IsCurrentState o ReplicationState.secondary &&
          IsUnhealthy env (some o)) = true
      · rw [if_pos h1, hcnt]
        by_cases hr : rest = []
        · subst hr
          simp
        · have hne : ¬(rest.length : Int) = 0 := by
            have := List.length_pos.mpr hr
            omega
          rw [if_neg hne]
          have := ih hr (fun o' ho' => hall o' (List.mem_cons_of_mem o ho'))
          exact List.mem_cons_of_mem _ (List.mem_append_right _ this)
      · rw [if_neg h1, if_pos h2, hcnt]
        by_cases hr : rest = []
        · subst hr
          simp
        · have hne : ¬(rest.length : Int) = 0 := by
            have := List.length_pos.mpr hr
            omega
          rw [if_neg hne]
          have := ih hr (fun o' ho' => hall o' (List.mem_cons_of_mem o ho'))
          exact List.mem_append_right _ this

/-- Exhaustive enumeration of the outcomes of one engine invocation:
the located-no-primary error, the no-rule-fired outcome, the sole-node
collapse, the four primary-side outcomes, and the five standby-side
outcomes, each with the guard facts used by the invariant proofs. -/
theorem proceed_shapes (env : MonitorEnv) (f : AutoFailoverFormation)
    (nodes : List AutoFailoverNode) (activeNode : AutoFailoverNode)
    (r : EngineResult) (hr : ProceedGroupState env f nodes activeNode = r) :
    (IsInPrimaryState activeNode = false ∧
      GetPrimaryNodeInGroup nodes = none ∧ r = EngineResult.error) ∨
    r = EngineResult.ok false [] ∨
    (nodes.length = 1 ∧
      r = EngineResult.ok true
        [Assignment.mk activeNode.nodeId ReplicationState.single]) ∨
    (IsInPrimaryState activeNode = true ∧
      (r = EngineResult.ok true
          [Assignment.mk activeNode.nodeId ReplicationState.wait_primary] ∨
        r = EngineResult.ok true
          [Assignment.mk activeNode.nodeId ReplicationState.join_primary] ∨
        r = EngineResult.ok true
          [Assignment.mk activeNode.nodeId ReplicationState.primary] ∨
        (IsCurrentState activeNode ReplicationState.primary = true ∧
          r = EngineResult.ok true
            (r12Loop env activeNode
              (AutoFailoverOtherNodesList nodes activeNode)
              ((AutoFailoverOtherNodesList nodes activeNode).length :
                Int))))) ∨
    (IsInPrimaryState activeNode = false ∧
      ∃ p, GetPrimaryNodeInGroup nodes = some p ∧
        (r = EngineResult.ok true
            [Assignment.mk activeNode.nodeId ReplicationState.catchingup] ∨
          r = EngineResult.ok true
            [Assignment.mk activeNode.nodeId ReplicationState.secondary,
             Assignment.mk p.nodeId ReplicationState.primary] ∨
          (IsCurrentState activeNode ReplicationState.secondary = true ∧
            r = EngineResult.ok true
              [Assignment.mk activeNode.nodeId
                ReplicationState.prepare_promotion,
               Assignment.mk p.nodeId ReplicationState.draining]) ∨
          r = EngineResult.ok true
            [Assignment.mk activeNode.nodeId ReplicationState.wait_primary,
             Assignment.mk p.nodeId ReplicationState.demoted] ∨
          (IsCurrentState activeNode ReplicationState.prepare_promotion =
              true ∧
            r = EngineResult.ok true
              [Assignment.mk activeNode.nodeId
                ReplicationState.stop_replication,
               Assignment.mk p.nodeId ReplicationState.demote_timeout]))) := by
  unfold ProceedGroupState at hr
  split at hr
  · next h =>
    have hlen : nodes.length = 1 := by
      simp only [Bool.and_eq_true, decide_eq_true_eq] at h
      exact h.1
    exact Or.inr (Or.inr (Or.inl ⟨hlen, hr.symm⟩))
  · split at hr
    · next hprim =>
      unfold ProceedGroupStateForPrimaryNode at hr
      split at hr
      · exact Or.inr (Or.inr (Or.inr (Or.inl ⟨hprim, Or.inl hr.symm⟩)))
      · split at hr
        · exact Or.inr (Or.inr (Or.inr (Or.inl
            ⟨hprim, Or.inr (Or.inl hr.symm)⟩)))
        · split at hr
          · next hcur =>
            exact Or.inr (Or.inr (Or.inr (Or.inl
              ⟨hprim, Or.inr (Or.inr (Or.inr ⟨hcur, hr.symm⟩))⟩)))
          · split at hr
            · exact Or.inr (Or.inr (Or.inr (Or.inl
                ⟨hprim, Or.inr (Or.inr (Or.inl hr.symm))⟩)))
            · exact Or.inr (Or.inl hr.symm)
    · next hnprim =>
      have hfalse : IsInPrimaryState activeNode = false := by
        simpa using hnprim
      split at hr
      · next heq =>
        exact Or.inl ⟨hfalse, heq, hr.symm⟩
      · next p heq =>
        split at hr
        · exact Or.inr (Or.inr (Or.inr (Or.inr
            ⟨hfalse, p, heq, Or.inl hr.symm⟩)))
        · split at hr
          · exact Or.inr (Or.inr (Or.inr (Or.inr
              ⟨hfalse, p, heq, Or.inr (Or.inl hr.symm)⟩)))
          · split at hr
            · next hc =>
              simp only [Bool.and_eq_true] at hc
              exact Or.inr (Or.inr (Or.inr (Or.inr
                ⟨hfalse, p, heq,
                  Or.inr (Or.inr (Or.inl ⟨hc.1.1.1.1, hr.symm⟩))⟩)))
            · split at hr
              · exact Or.inr (Or.inr (Or.inr (Or.inr
                  ⟨hfalse, p, heq,
                    Or.inr (Or.inr (Or.inr (Or.inl hr.symm)))⟩)))
              · split at hr
                · next hc =>
                  exact Or.inr (Or.inr (Or.inr (Or.inr
                    ⟨hfalse, p, heq,
                      Or.inr (Or.inr (Or.inr (Or.inr ⟨hc, hr.symm⟩)))⟩)))
                · split at hr
                  · exact Or.inr (Or.inr (Or.inr (Or.inr
                      ⟨hfalse, p, heq,
                        Or.inr (Or.inr (Or.inr (Or.inl hr.symm)))⟩)))
                  · split at hr
                    · exact Or.inr (Or.inr (Or.inr (Or.inr
                        ⟨hfalse, p, heq,
                          Or.inr (Or.inr (Or.inr (Or.inl hr.symm)))⟩)))
                    · split at hr
                      · exact Or.inr (Or.inr (Or.inr (Or.inr
                          ⟨hfalse, p, heq, Or.inl hr.symm⟩)))
                      · exact Or.inr (Or.inl hr.symm)

theorem plGoal_le_plNode (nodes : List AutoFailoverNode) :
    primaryLikeGoalCount nodes ≤ nodes.countP IsInPrimaryState := by
  apply List.countP_mono_left
  intro n _ h
  rw [IsInPrimaryState, h, Bool.or_true]

theorem applyNonPL_le (nodes : List AutoFailoverNode)
    (assignments : List Assignment)
    (hnpl : ∀ a ∈ assignments, isPrimaryLikeAssignment a = false) :
    primaryLikeGoalCount (applyAssignments nodes assignments) ≤
      primaryLikeGoalCount nodes := by
  rw [primaryLikeGoalCount, applyAssignments_eq_map, List.countP_map]
  apply List.countP_mono_left
  intro n _ hpn
  rcases applyAll_goal_cases assignments n hpn with h | ⟨a, ha, _, hpl⟩
  · exact h
  · have hf := hnpl a ha
    unfold isPrimaryLikeAssignment at hf
    rw [hf] at hpl
    exact absurd hpl (by simp)

theorem applyTargeted_le_one (nodes : List AutoFailoverNode)
    (assignments : List Assignment) (tid : Nat)
    (hnd : (nodes.map AutoFailoverNode.nodeId).Nodup)
    (h1 : ∀ a ∈ assignments, isPrimaryLikeAssignment a = true →
      a.nodeId = tid)
    (h2 : ∀ n ∈ nodes, isPrimaryLikeState n.goalState = true →
      n.nodeId = tid) :
    primaryLikeGoalCount (applyAssignments nodes assignments) ≤ 1 := by
  rw [primaryLikeGoalCount, applyAssignments_eq_map, List.countP_map]
  apply countP_le_one_of_id tid hnd
  intro n hn hpn
  rcases applyAll_goal_cases assignments n hpn with h | ⟨a, ha, haid, hpl⟩
  · exact h2 n hn h
  · rw [← haid]
    exact h1 a ha hpl

theorem applyTwo_le_one (nodes : List AutoFailoverNode)
    (p : AutoFailoverNode) (i1 : Nat) (s1 s2 : ReplicationState)
    (hnd : (nodes.map AutoFailoverNode.nodeId).Nodup)
    (huniq : nodes.countP IsInPrimaryState ≤ 1)
    (hp : p ∈ nodes) (hppl : IsInPrimaryState p = true)
    (hs : isPrimaryLikeState s1 = false ∨ isPrimaryLikeState s2 = false) :
    primaryLikeGoalCount
      (applyAssignments nodes
        [Assignment.mk i1 s1, Assignment.mk p.nodeId s2]) ≤ 1 := by
  rw [primaryLikeGoalCount, applyAssignments_eq_map, List.countP_map]
  apply countP_le_one_of_id
    (if isPrimaryLikeState s1 = true then i1 else p.nodeId) hnd
  intro n hn hpn
  have hpn' :
      isPrimaryLikeState
        (applyAll [Assignment.mk i1 s1, Assignment.mk p.nodeId s2]
          n).goalState = true := hpn
  by_cases hn1 : n.nodeId = i1
  · by_cases hs1 : isPrimaryLikeState s1 = true
    · rw [if_pos hs1]
      exact hn1
    · by_cases hn2 : n.nodeId = p.nodeId
      · have hg :
            (applyAll [Assignment.mk i1 s1, Assignment.mk p.nodeId s2]
              n).goalState = s2 := by
          simp [applyAll, hn1, hn2, hn1.symm.trans hn2]
        rw [hg] at hpn'
        rw [if_neg hs1]
        exact hn2
      · have hip : ¬(i1 = p.nodeId) := fun h => hn2 (hn1.trans h)
        have hg :
            (applyAll [Assignment.mk i1 s1, Assignment.mk p.nodeId s2]
              n).goalState = s1 := by
          simp [applyAll, hn1, hn2, hip]
        rw [hg] at hpn'
        exact absurd hpn' hs1
  · by_cases hn2 : n.nodeId = p.nodeId
    · have hpi : ¬(p.nodeId = i1) := fun h => hn1 (hn2.trans h)
      have hg :
          (applyAll [Assignment.mk i1 s1, Assignment.mk p.nodeId s2]
            n).goalState = s2 := by
        simp [applyAll, hn1, hn2, hpi]
      rw [hg] at hpn'
      rcases hs with hs1 | hs2
      · rw [if_neg (by simp [hs1])]
        exact hn2
      · rw [hs2] at hpn'
        exact absurd hpn' (by simp)
    · have hg :
          applyAll [Assignment.mk i1 s1, Assignment.mk p.nodeId s2] n =
            n := by
        simp [applyAll, hn1, hn2]
      rw [hg] at hpn'
      have hnpl : IsInPrimaryState n = true := by
        rw [IsInPrimaryState, hpn', Bool.or_true]
      have hne : n = p := eq_of_countP_le_one huniq hn hp hnpl hppl
      exact absurd (congrArg AutoFailoverNode.nodeId hne) hn2

theorem r12Loop_catchingup_mem (env : MonitorEnv)
    (primaryNode : AutoFailoverNode) :
    ∀ (others : List AutoFailoverNode) (cnt : Int)
      (o : AutoFailoverNode), o ∈ others →
      (IsCurrentState o ReplicationState.secondary &&
        IsUnhealthy env (some o)) = true →
      Assignment.mk o.nodeId ReplicationState.catchingup ∈
        r12Loop env primaryNode others cnt := by
  intro others
  induction others with
  | nil => intro cnt o ho; exact absurd ho (List.not_mem_nil o)
  | cons x rest ih =>
    intro cnt o ho hcond
    rcases List.mem_cons.mp ho with rfl | ho'
    · simp only [r12Loop]
      rw [if_pos hcond]
      exact List.mem_cons_self _ _
    · simp only [r12Loop]
      split
      · exact List.mem_cons_of_mem _
          (List.mem_append_right _ (ih _ o ho' hcond))
      · split
        · exact List.mem_append_right _ (ih _ o ho' hcond)
        · exact List.mem_append_right _ (ih _ o ho' hcond)

theorem r12Loop_fire_inv (env : MonitorEnv)
    (primaryNode : AutoFailoverNode) :
    ∀ (others : List AutoFailoverNode) (cnt : Int),
      (others.length : Int) ≤ cnt →
      Assignment.mk primaryNode.nodeId ReplicationState.wait_primary ∈
        r12Loop env primaryNode others cnt →
      cnt = (others.length : Int) ∧ others ≠ [] ∧
        ∀ o ∈ others, r12Decrements env o = true := by
  intro others
  induction others with
  | nil => intro cnt _ hmem; simp [r12Loop] at hmem
  | cons x rest ih =>
    intro cnt hle hmem
    have hlen : (rest.length : Int) + 1 ≤ cnt := by
      rw [List.length_cons] at hle
      omega
    simp only [r12Loop] at hmem
    split at hmem
    · next hcond =>
      rcases List.mem_cons.mp hmem with heq | hmem'
      · exact absurd heq (by simp)
      · rcases List.mem_append.mp hmem' with hfire | hrec
        · split at hfire
          · next hz =>
            have hrest : rest = [] := by
              have : rest.length = 0 := by omega
              exact List.length_eq_zero.mp this
            subst hrest
            refine ⟨by simp; omega, by simp, ?_⟩
            intro o ho
            rcases List.mem_cons.mp ho with rfl | h0
            · simp [r12Decrements, hcond]
            · exact absurd h0 (List.not_mem_nil o)
          · exact absurd hfire (List.not_mem_nil _)
        · obtain ⟨h1, _, h3⟩ := ih (cnt - 1) (by omega) hrec
          refine ⟨by rw [List.length_cons]; omega, by simp, ?_⟩
          intro o ho
          rcases List.mem_cons.mp ho with rfl | ho'
          · simp [r12Decrements, hcond]
          · exact h3 o ho'
    · split at hmem
      · next hcond2 =>
        rcases List.mem_append.mp hmem with hfire | hrec
        · split at hfire
          · next hz =>
            have hrest : rest = [] := by
              have : rest.length = 0 := by omega
              exact List.length_eq_zero.mp this
            subst hrest
            refine ⟨by simp; omega, by simp, ?_⟩
            intro o ho
            rcases List.mem_cons.mp ho with rfl | h0
            · simp [r12Decrements, hcond2]
            · exact absurd h0 (List.not_mem_nil o)
          · exact absurd hfire (List.not_mem_nil _)
        · obtain ⟨h1, _, h3⟩ := ih (cnt - 1) (by omega) hrec
          refine ⟨by rw [List.length_cons]; omega, by simp, ?_⟩
          intro o ho
          rcases List.mem_cons.mp ho with rfl | ho'
          · simp [r12Decrements, hcond2]
          · exact h3 o ho'
      · rcases List.mem_append.mp hmem with hfire | hrec
        · split at hfire
          · next hz =>
            exact absurd hz (by omega)
          · exact absurd hfire (List.not_mem_nil _)
        · obtain ⟨h1, _, _⟩ := ih cnt (by omega) hrec
          exact absurd h1 (by omega)

/-- When the reporting node has converged to `primary`, the group has
more than one node and no other node has converged to `wait_standby`,
the engine takes the R12 path: it returns true with exactly the
assignments of the standby-health bookkeeping loop, whose counter
starts at the number of other nodes. -/
theorem proceed_primary_r12 (env : MonitorEnv) (f : AutoFailoverFormation)
    (nodes : List AutoFailoverNode) (activeNode : AutoFailoverNode)
    (hconv : IsCurrentState activeNode ReplicationState.primary = true)
    (hlen : nodes.length ≠ 1)
    (hnws : ∀ o ∈ AutoFailoverOtherNodesList nodes activeNode,
        IsCurrentState o ReplicationState.wait_standby = false) :
    ProceedGroupState env f nodes activeNode =
      EngineResult.ok true
        (r12Loop env activeNode (AutoFailoverOtherNodesList nodes activeNode)
          ((AutoFailoverOtherNodesList nodes activeNode).length : Int)) := by
  have hrep : activeNode.reportedState = ReplicationState.primary ∧
      activeNode.goalState = ReplicationState.primary := by
    simpa [IsCurrentState] using hconv
  have hb0 : ¬((decide (nodes.length = 1) &&
      !IsCurrentState activeNode ReplicationState.single) = true) := by
    simp [hlen]
  have hbp : IsInPrimaryState activeNode = true := by
    rw [IsInPrimaryState, hrep.1]
    simp [isPrimaryLikeState]
  have hb1 : ¬((IsCurrentState activeNode ReplicationState.single &&
      (AutoFailoverOtherNodesList nodes activeNode).any
        (fun o => IsCurrentState o ReplicationState.wait_standby)) =
      true) := by
    simp [IsCurrentState, hrep.1]
  have hb2 : ¬((IsCurrentState activeNode ReplicationState.primary &&
      (AutoFailoverOtherNodesList nodes activeNode).any
        (fun o => IsCurrentState o ReplicationState.wait_standby)) =
      true) := by
    simp only [Bool.and_eq_true, List.any_eq_true]
    rintro ⟨-, o, ho, hws⟩
    rw [hnws o ho] at hws
    exact Bool.false_ne_true hws
  unfold ProceedGroupState ProceedGroupStateForPrimaryNode
  rw [if_neg hb0, if_pos hbp, if_neg hb1, if_neg hb2, if_pos hconv]

/-- C2 (amended): for every well-formed group snapshot (reporting node
in the group, pairwise-distinct node ids) in which at most one node has
its reportedState or goalState in the primary-like set, the invariant
"at most one node has a primary-like goalState" holds after applying
all goal-state assignments of one engine invocation, for any reporting
node, formation, health, lag and timer inputs. -/
theorem c2_primary_like_invariant_preserved_amended
    (env : MonitorEnv) (f : AutoFailoverFormation)
    (nodes : List AutoFailoverNode) (activeNode : AutoFailoverNode)
    (hmem : activeNode ∈ nodes)
    (hnd : (nodes.map AutoFailoverNode.nodeId).Nodup)
    (huniq : nodes.countP IsInPrimaryState ≤ 1) :
    primaryLikeGoalCount
      (applyAssignments nodes
        (resultAssignments (ProceedGroupState env f nodes activeNode))) ≤
      1 := by
  have hpre : primaryLikeGoalCount nodes ≤ 1 :=
    le_trans (plGoal_le_plNode nodes) huniq
  rcases proceed_shapes env f nodes activeNode _ rfl with
    ⟨_, _, hr⟩ | hr | ⟨hlen, hr⟩ | ⟨hprim, hcase⟩ | ⟨hnprim, p, hfind, hcase⟩
  · rw [hr]
    exact hpre
  · rw [hr]
    exact hpre
  · rw [hr]
    have h1 : primaryLikeGoalCount
        (applyAssignments nodes
          [Assignment.mk activeNode.nodeId ReplicationState.single]) ≤
        (applyAssignments nodes
          [Assignment.mk activeNode.nodeId
            ReplicationState.single]).length :=
      List.countP_le_length _
    have h2 : (applyAssignments nodes
        [Assignment.mk activeNode.nodeId
          ReplicationState.single]).length = nodes.length := by
      rw [applyAssignments_eq_map, List.length_map]
    show primaryLikeGoalCount
      (applyAssignments nodes
        [Assignment.mk activeNode.nodeId ReplicationState.single]) ≤ 1
    omega
  · have h2 : ∀ n ∈ nodes, isPrimaryLikeState n.goalState = true →
        n.nodeId = activeNode.nodeId := by
      intro n hn hg
      have hnpl : IsInPrimaryState n = true := by
        rw [IsInPrimaryState, hg, Bool.or_true]
      exact congrArg AutoFailoverNode.nodeId
        (eq_of_countP_le_one huniq hn hmem hnpl hprim)
    rcases hcase with hr | hr | hr | ⟨_, hr⟩
    · rw [hr]
      refine applyTargeted_le_one nodes _ activeNode.nodeId hnd ?_ h2
      intro a ha _
      rcases List.mem_singleton.mp ha with rfl
      rfl
    · rw [hr]
      refine applyTargeted_le_one nodes _ activeNode.nodeId hnd ?_ h2
      intro a ha _
      rcases List.mem_singleton.mp ha with rfl
      rfl
    · rw [hr]
      refine applyTargeted_le_one nodes _ activeNode.nodeId hnd ?_ h2
      intro a ha _
      rcases List.mem_singleton.mp ha with rfl
      rfl
    · rw [hr]
      refine applyTargeted_le_one nodes _ activeNode.nodeId hnd ?_ h2
      intro a ha hpl
      rcases r12Loop_mem env activeNode _ _ a ha with hcg | ⟨hid, _⟩
      · exfalso
        unfold isPrimaryLikeAssignment at hpl
        rw [hcg] at hpl
        exact absurd hpl (by simp [isPrimaryLikeState])
      · exact hid
  · rw [GetPrimaryNodeInGroup] at hfind
    have hpmem : p ∈ nodes := List.mem_of_find?_eq_some hfind
    have hppl : IsInPrimaryState p = true := List.find?_some hfind
    rcases hcase with hr | hr | ⟨_, hr⟩ | hr | ⟨_, hr⟩
    · rw [hr]
      refine le_trans (applyNonPL_le nodes _ ?_) hpre
      intro a ha
      rcases List.mem_singleton.mp ha with rfl
      rfl
    · rw [hr]
      exact applyTwo_le_one nodes p activeNode.nodeId
        ReplicationState.secondary ReplicationState.primary
        hnd huniq hpmem hppl (Or.inl rfl)
    · rw [hr]
      refine le_trans (applyNonPL_le nodes _ ?_) hpre
      intro a ha
      rcases List.mem_cons.mp ha with rfl | ha'
      · rfl
      · rcases List.mem_singleton.mp ha' with rfl
        rfl
    · rw [hr]
      exact applyTwo_le_one nodes p activeNode.nodeId
        ReplicationState.wait_primary ReplicationState.demoted
        hnd huniq hpmem hppl (Or.inr rfl)
    · rw [hr]
      refine le_trans (applyNonPL_le nodes _ ?_) hpre
      intro a ha
      rcases List.mem_cons.mp ha with rfl | ha'
      · rfl
      · rcases List.mem_singleton.mp ha' with rfl
        rfl

/-- C6: every engine invocation, on any group snapshot, reporting node,
formation, health, lag and timer inputs, performs at most one
assignment whose new goal state is in the primary-like set; in the R12
loop the counter, starting at the number of other nodes, can reach
zero at most once. -/
theorem c6_at_most_one_primary_like_assignment
    (env : MonitorEnv) (f : AutoFailoverFormation)
    (nodes : List AutoFailoverNode) (activeNode : AutoFailoverNode) :
    (resultAssignments (ProceedGroupState env f nodes activeNode)).countP
      isPrimaryLikeAssignment ≤ 1 := by
  rcases proceed_shapes env f nodes activeNode _ rfl with
    ⟨_, _, hr⟩ | hr | ⟨_, hr⟩ | ⟨_, hcase⟩ | ⟨_, p, _, hcase⟩
  · rw [hr]
    simp [resultAssignments]
  · rw [hr]
    simp [resultAssignments]
  · rw [hr]
    simp [resultAssignments, List.countP_cons, isPrimaryLikeAssignment,
      isPrimaryLikeState]
  · rcases hcase with hr | hr | hr | ⟨_, hr⟩ <;> rw [hr]
    · simp [resultAssignments, List.countP_cons, isPrimaryLikeAssignment,
        isPrimaryLikeState]
    · simp [resultAssignments, List.countP_cons, isPrimaryLikeAssignment,
        isPrimaryLikeState]
    · simp [resultAssignments, List.countP_cons, isPrimaryLikeAssignment,
        isPrimaryLikeState]
    · exact r12Loop_countPL env activeNode _ _ (le_refl _)
  · rcases hcase with hr | hr | ⟨_, hr⟩ | hr | ⟨_, hr⟩ <;> rw [hr] <;>
      simp [resultAssignments, List.countP_cons, isPrimaryLikeAssignment,
        isPrimaryLikeState]

/-- C3: whenever an invocation assigns `stop_replication` to a node,
the same invocation also assigns `demote_timeout` to the group's prior
primary-like node (the node located by the primary scan);
`stop_replication` is never assigned alone. -/
theorem c3_stop_replication_paired_with_demote_timeout
    (env : MonitorEnv) (f : AutoFailoverFormation)
    (nodes : List AutoFailoverNode) (activeNode : AutoFailoverNode)
    (b : Bool) (assignments : List Assignment)
    (hr : ProceedGroupState env f nodes activeNode =
      EngineResult.ok b assignments) :
    ∀ a ∈ assignments,
      a.newGoalState = ReplicationState.stop_replication →
      ∃ p, GetPrimaryNodeInGroup nodes = some p ∧ p ∈ nodes ∧
        IsInPrimaryState p = true ∧
        Assignment.mk p.nodeId ReplicationState.demote_timeout ∈
          assignments := by
  intro a ha hstop
  rcases proceed_shapes env f nodes activeNode _ hr with
    ⟨_, _, heq⟩ | heq | ⟨_, heq⟩ | ⟨_, hcase⟩ | ⟨_, p, hfind, hcase⟩
  · exact absurd heq (by simp)
  · injection heq with _ has
    subst has
    exact absurd ha (List.not_mem_nil a)
  · injection heq with _ has
    subst has
    rcases List.mem_singleton.mp ha with rfl
    exact absurd hstop (by simp)
  · rcases hcase with heq | heq | heq | ⟨_, heq⟩ <;>
      injection heq with _ has <;> subst has
    · rcases List.mem_singleton.mp ha with rfl
      exact absurd hstop (by simp)
    · rcases List.mem_singleton.mp ha with rfl
      exact absurd hstop (by simp)
    · rcases List.mem_singleton.mp ha with rfl
      exact absurd hstop (by simp)
    · rcases r12Loop_mem env activeNode _ _ a ha with hcg | ⟨_, hwp⟩
      · rw [hstop] at hcg
        exact absurd hcg (by simp)
      · rw [hstop] at hwp
        exact absurd hwp (by simp)
  · rcases hcase with heq | heq | ⟨_, heq⟩ | heq | ⟨_, heq⟩ <;>
      injection heq with _ has <;> subst has
    · rcases List.mem_singleton.mp ha with rfl
      exact absurd hstop (by simp)
    · rcases List.mem_cons.mp ha with rfl | ha'
      · exact absurd hstop (by simp)
      · rcases List.mem_singleton.mp ha' with rfl
        exact absurd hstop (by simp)
    · rcases List.mem_cons.mp ha with rfl | ha'
      · exact absurd hstop (by simp)
      · rcases List.mem_singleton.mp ha' with rfl
        exact absurd hstop (by simp)
    · rcases List.mem_cons.mp ha with rfl | ha'
      · exact absurd hstop (by simp)
      · rcases List.mem_singleton.mp ha' with rfl
        exact absurd hstop (by simp)
    · rw [GetPrimaryNodeInGroup] at hfind
      refine ⟨p, hfind, List.mem_of_find?_eq_some hfind,
        List.find?_some hfind, ?_⟩
      exact List.mem_cons_of_mem _ (List.mem_singleton.mpr rfl)

/-- C8: `stop_replication` is assigned only to the reporting node and
only when it has converged to `prepare_promotion`; in particular a
node that has converged to `catchingup` is never assigned
`stop_replication` by a single invocation, so the chain
`secondary → prepare_promotion → stop_replication` cannot be
skipped. -/
theorem c8_stop_replication_requires_prepare_promotion
    (env : MonitorEnv) (f : AutoFailoverFormation)
    (nodes : List AutoFailoverNode) (activeNode : AutoFailoverNode)
    (hmem : activeNode ∈ nodes)
    (hnd : (nodes.map AutoFailoverNode.nodeId).Nodup) :
    (∀ a ∈ resultAssignments (ProceedGroupState env f nodes activeNode),
        a.newGoalState = ReplicationState.stop_replication →
        a.nodeId = activeNode.nodeId ∧
        IsCurrentState activeNode ReplicationState.prepare_promotion =
          true) ∧
    (∀ n ∈ nodes, IsCurrentState n ReplicationState.catchingup = true →
        Assignment.mk n.nodeId ReplicationState.stop_replication ∉
          resultAssignments (ProceedGroupState env f nodes activeNode)) := by
  have hmain : ∀ a ∈ resultAssignments (ProceedGroupState env f nodes
      activeNode),
      a.newGoalState = ReplicationState.stop_replication →
      a.nodeId = activeNode.nodeId ∧
      IsCurrentState activeNode ReplicationState.prepare_promotion =
        true := by
    intro a ha hstop
    rcases proceed_shapes env f nodes activeNode _ rfl with
      ⟨_, _, heq⟩ | heq | ⟨_, heq⟩ | ⟨_, hcase⟩ | ⟨_, p, hfind, hcase⟩
    · rw [heq] at ha
      exact absurd ha (List.not_mem_nil a)
    · rw [heq] at ha
      exact absurd ha (List.not_mem_nil a)
    · rw [heq] at ha
      rcases List.mem_singleton.mp ha with rfl
      exact absurd hstop (by simp)
    · rcases hcase with heq | heq | heq | ⟨_, heq⟩ <;> rw [heq] at ha
      · rcases List.mem_singleton.mp ha with rfl
        exact absurd hstop (by simp)
      · rcases List.mem_singleton.mp ha with rfl
        exact absurd hstop (by simp)
      · rcases List.mem_singleton.mp ha with rfl
        exact absurd hstop (by simp)
      · rcases r12Loop_mem env activeNode _ _ a ha with hcg | ⟨_, hwp⟩
        · rw [hstop] at hcg
          exact absurd hcg (by simp)
        · rw [hstop] at hwp
          exact absurd hwp (by simp)
    · rcases hcase with heq | heq | ⟨_, heq⟩ | heq | ⟨hpp, heq⟩ <;>
        rw [heq] at ha
      · rcases List.mem_singleton.mp ha with rfl
        exact absurd hstop (by simp)
      · rcases List.mem_cons.mp ha with rfl | ha'
        · exact absurd hstop (by simp)
        · rcases List.mem_singleton.mp ha' with rfl
          exact absurd hstop (by simp)
      · rcases List.mem_cons.mp ha with rfl | ha'
        · exact absurd hstop (by simp)
        · rcases List.mem_singleton.mp ha' with rfl
          exact absurd hstop (by simp)
      · rcases List.mem_cons.mp ha with rfl | ha'
        · exact absurd hstop (by simp)
        · rcases List.mem_singleton.mp ha' with rfl
          exact absurd hstop (by simp)
      · rcases List.mem_cons.mp ha with rfl | ha'
        · exact ⟨rfl, hpp⟩
        · rcases List.mem_singleton.mp ha' with rfl
          exact absurd hstop (by simp)
  refine ⟨hmain, ?_⟩
  intro n hn hcatch hmem'
  obtain ⟨hid, hpp⟩ := hmain _ hmem' rfl
  have hnact : n = activeNode := eq_of_mem_nodupIds hnd hn hmem hid
  rw [hnact] at hcatch
  simp only [IsCurrentState, Bool.and_eq_true, decide_eq_true_eq]
    at hcatch hpp
  rw [hcatch.1] at hpp
  exact absurd hpp.1 (by simp)

/-- C5: when the reporting node has converged to `primary` (group of
more than one node, no other node converged to `wait_standby`), the
engine runs the R12 loop exactly once over the other nodes with the
counter starting at their number; every converged unhealthy secondary
is assigned `catchingup`; and the primary is assigned `wait_primary`
exactly when the counter reaches zero, i.e. exactly when every other
node decrements it (unhealthy converged secondary, or quorum false, or
candidate priority zero). -/
theorem c5_r12_loop_characterization
    (env : MonitorEnv) (f : AutoFailoverFormation)
    (nodes : List AutoFailoverNode) (activeNode : AutoFailoverNode)
    (hconv : IsCurrentState activeNode ReplicationState.primary = true)
    (hlen : nodes.length ≠ 1)
    (hnws : ∀ o ∈ AutoFailoverOtherNodesList nodes activeNode,
        IsCurrentState o ReplicationState.wait_standby = false) :
    ProceedGroupState env f nodes activeNode =
      EngineResult.ok true
        (r12Loop env activeNode
          (AutoFailoverOtherNodesList nodes activeNode)
          ((AutoFailoverOtherNodesList nodes activeNode).length : Int)) ∧
    (∀ o ∈ AutoFailoverOtherNodesList nodes activeNode,
        (IsCurrentState o ReplicationState.secondary &&
          IsUnhealthy env (some o)) = true →
        Assignment.mk o.nodeId ReplicationState.catchingup ∈
          r12Loop env activeNode
            (AutoFailoverOtherNodesList nodes activeNode)
            ((AutoFailoverOtherNodesList nodes activeNode).length : Int)) ∧
    (Assignment.mk activeNode.nodeId ReplicationState.wait_primary ∈
        r12Loop env activeNode
          (AutoFailoverOtherNodesList nodes activeNode)
          ((AutoFailoverOtherNodesList nodes activeNode).length : Int) ↔
      AutoFailoverOtherNodesList nodes activeNode ≠ [] ∧
        ∀ o ∈ AutoFailoverOtherNodesList nodes activeNode,
          r12Decrements env o = true) := by
  refine ⟨proceed_primary_r12 env f nodes activeNode hconv hlen hnws,
    fun o ho hcond => r12Loop_catchingup_mem env activeNode _ _ o ho hcond,
    ?_, ?_⟩
  · intro hfire
    obtain ⟨_, hne, hall⟩ :=
      r12Loop_fire_inv env activeNode _ _ (le_refl _) hfire
    exact ⟨hne, hall⟩
  · rintro ⟨hne, hall⟩
    exact r12Loop_fire_of_all env activeNode _ hne hall

/-- C10: when the reporting node has converged to `primary`, the group
has more than one node and no other node has converged to
`wait_standby`, the engine returns true with exactly the R12-loop
assignments — which can be the empty list, so a true return does not
imply that any assignment was made. -/
theorem c10_primary_report_returns_true
    (env : MonitorEnv) (f : AutoFailoverFormation)
    (nodes : List AutoFailoverNode) (activeNode : AutoFailoverNode)
    (hconv : IsCurrentState activeNode ReplicationState.primary = true)
    (hlen : nodes.length ≠ 1)
    (hnws : ∀ o ∈ AutoFailoverOtherNodesList nodes activeNode,
        IsCurrentState o ReplicationState.wait_standby = false) :
    ProceedGroupState env f nodes activeNode =
      EngineResult.ok true
        (r12Loop env activeNode
          (AutoFailoverOtherNodesList nodes activeNode)
          ((AutoFailoverOtherNodesList nodes activeNode).length : Int)) :=
  proceed_primary_r12 env f nodes activeNode hconv hlen hnws

/-- C4: when the reporting node is not primary-like, the group has more
than one node and no primary-like node can be located, the engine
aborts with the error outcome: it produces no assignments and changes
no node's goal state. -/
theorem c4_missing_primary_returns_error
    (env : MonitorEnv) (f : AutoFailoverFormation)
    (nodes : List AutoFailoverNode) (activeNode : AutoFailoverNode)
    (hgt : 1 < nodes.length)
    (hnp : IsInPrimaryState activeNode = false)
    (hnone : GetPrimaryNodeInGroup nodes = none) :
    ProceedGroupState env f nodes activeNode = EngineResult.error ∧
    resultAssignments (ProceedGroupState env f nodes activeNode) = [] ∧
    applyAssignments nodes
      (resultAssignments (ProceedGroupState env f nodes activeNode)) =
      nodes := by
  have hne : nodes.length ≠ 1 := by omega
  have herr : ProceedGroupState env f nodes activeNode =
      EngineResult.error := by
    unfold ProceedGroupState
    rw [if_neg (by simp [hne]), if_neg (by simp [hnp]), hnone]
  refine ⟨herr, ?_, ?_⟩
  · rw [herr]
    rfl
  · rw [herr]
    rfl

/-- The lag predicate exactly as the claim words it: true exactly when
both nodes' reported LSNs are non-zero and their absolute difference
is at most delta; false when either reported LSN is zero; true in the
vacuous case that BOTH node arguments are absent.  (Stated for
refinement comparison with `WalDifferenceWithin`.) -/
def lagWithinSpec (a b : Option AutoFailoverNode) (delta : Int) : Bool :=
  match a, b with
  | none, none => true
  | some sn, some pn =>
    decide (sn.reportedLSN ≠ 0) && decide (pn.reportedLSN ≠ 0) &&
      decide (|sn.reportedLSN - pn.reportedLSN| ≤ delta)
  | _, _ => false

/-- A signed 64-bit quantity that fits without wrapping is its own
two's-complement reinterpretation. -/
theorem uint64ToInt64_eq_self {d : Int} (h1 : -(2 ^ 63) ≤ d)
    (h2 : d < 2 ^ 63) : uint64ToInt64 d = d := by
  rw [uint64ToInt64]
  split <;> omega

/-- C7 counterexample: the claim's predicate disagrees with the code's
`WalDifferenceWithin` at two concrete inputs.  With the first node
argument absent and the second present the code returns true while the
claim's predicate returns false; and with the secondary's LSN ahead of
the other node's by 20000000 (far beyond the 16MB bound) the uint64
subtraction wraps, the int64 `walDifference` is negative, and the code
returns true while the claim's absolute-difference predicate returns
false. -/
theorem c7_lag_spec_mismatch :
    (WalDifferenceWithin none
      (some (AutoFailoverNode.mk 1 0 ReplicationState.primary
        ReplicationState.primary 100 100 true NodeHealth.good true 0 0 0))
      16777216 = true ∧
    lagWithinSpec none
      (some (AutoFailoverNode.mk 1 0 ReplicationState.primary
        ReplicationState.primary 100 100 true NodeHealth.good true 0 0 0))
      16777216 = false) ∧
    (WalDifferenceWithin
      (some (AutoFailoverNode.mk 1 0 ReplicationState.secondary
        ReplicationState.secondary 20000001 100 true NodeHealth.good true
        0 0 0))
      (some (AutoFailoverNode.mk 2 0 ReplicationState.primary
        ReplicationState.primary 1 100 true NodeHealth.good true 0 0 0))
      16777216 = true ∧
    lagWithinSpec
      (some (AutoFailoverNode.mk 1 0 ReplicationState.secondary
        ReplicationState.secondary 20000001 100 true NodeHealth.good true
        0 0 0))
      (some (AutoFailoverNode.mk 2 0 ReplicationState.primary
        ReplicationState.primary 1 100 true NodeHealth.good true 0 0 0))
      16777216 = false) := by
  refine ⟨⟨rfl, rfl⟩, ⟨?_, rfl⟩⟩
  decide

/-- C7 (amended): `WalDifferenceWithin` returns true when either node
argument is absent and false when either reported LSN is zero; when
both nodes are present with non-zero LSNs (below 2^63, the
representable XLogRecPtr positions that do not wrap as int64), it
returns true exactly when the SIGNED difference
`otherNode.reportedLSN - secondaryNode.reportedLSN` is at most delta:
it bounds only how far the secondary trails the other node, and is
true for any gap in the other direction, because the uint64
subtraction reinterpreted as int64 is negative there. -/
theorem c7_lag_predicate_amended (sn pn : AutoFailoverNode) (delta : Int)
    (hs0 : 0 ≤ sn.reportedLSN) (hs1 : sn.reportedLSN < 2 ^ 63)
    (hp0 : 0 ≤ pn.reportedLSN) (hp1 : pn.reportedLSN < 2 ^ 63) :
    WalDifferenceWithin none (some pn) delta = true ∧
    WalDifferenceWithin (some sn) none delta = true ∧
    (sn.reportedLSN = 0 ∨ pn.reportedLSN = 0 →
      WalDifferenceWithin (some sn) (some pn) delta = false) ∧
    (sn.reportedLSN ≠ 0 → pn.reportedLSN ≠ 0 →
      (WalDifferenceWithin (some sn) (some pn) delta = true ↔
        pn.reportedLSN - sn.reportedLSN ≤ delta)) := by
  refine ⟨rfl, rfl, ?_, ?_⟩
  · intro h
    rcases h with h | h <;> simp [WalDifferenceWithin, h]
  · intro hsne hpne
    have hwrap : uint64ToInt64 (pn.reportedLSN - sn.reportedLSN) =
        pn.reportedLSN - sn.reportedLSN :=
      uint64ToInt64_eq_self (by omega) (by omega)
    simp [WalDifferenceWithin, hsne, hpne, hwrap]

/-- Witness for C7 (amended): at the wrapped input (secondary LSN
20000001 ahead of the other node's LSN 1, bound 16MB) the signed
difference is -20000000 ≤ 16777216, so the characterization yields
true — the code accepts an arbitrarily large backward gap. -/
theorem c7_lag_predicate_amended_witness :
    (0 ≤ (AutoFailoverNode.mk 1 0 ReplicationState.secondary
        ReplicationState.secondary 20000001 100 true NodeHealth.good true
        0 0 0).reportedLSN ∧
      (AutoFailoverNode.mk 1 0 ReplicationState.secondary
        ReplicationState.secondary 20000001 100 true NodeHealth.good true
        0 0 0).reportedLSN < 2 ^ 63 ∧
      0 ≤ (AutoFailoverNode.mk 2 0 ReplicationState.primary
        ReplicationState.primary 1 100 true NodeHealth.good true 0 0
        0).reportedLSN ∧
      (AutoFailoverNode.mk 2 0 ReplicationState.primary
        ReplicationState.primary 1 100 true NodeHealth.good true 0 0
        0).reportedLSN < 2 ^ 63 ∧
      (AutoFailoverNode.mk 1 0 ReplicationState.secondary
        ReplicationState.secondary 20000001 100 true NodeHealth.good true
        0 0 0).reportedLSN ≠ 0 ∧
      (AutoFailoverNode.mk 2 0 ReplicationState.primary
        ReplicationState.primary 1 100 true NodeHealth.good true 0 0
        0).reportedLSN ≠ 0) ∧
    WalDifferenceWithin
      (some (AutoFailoverNode.mk 1 0 ReplicationState.secondary
        ReplicationState.secondary 20000001 100 true NodeHealth.good true
        0 0 0))
      (some (AutoFailoverNode.mk 2 0 ReplicationState.primary
        ReplicationState.primary 1 100 true NodeHealth.good true 0 0 0))
      16777216 = true :=
  ⟨⟨by decide, by decide, by decide, by decide, by decide, by decide⟩,
    ((c7_lag_predicate_amended
      (AutoFailoverNode.mk 1 0 ReplicationState.secondary
        ReplicationState.secondary 20000001 100 true NodeHealth.good true
        0 0 0)
      (AutoFailoverNode.mk 2 0 ReplicationState.primary
        ReplicationState.primary 1 100 true NodeHealth.good true 0 0 0)
      16777216
      (by decide) (by decide) (by decide) (by decide)).2.2.2
      (by decide) (by decide)).mpr (by decide)⟩

/-- C9: when exactly one of the two node arguments of
`WalDifferenceWithin` is absent, the code returns true, treating a
single missing node the same as both missing. -/
theorem c9_lag_true_when_one_node_absent (n : AutoFailoverNode)
    (delta : Int) :
    WalDifferenceWithin (some n) none delta = true ∧
    WalDifferenceWithin none (some n) delta = true :=
  ⟨rfl, rfl⟩

/-- C1: evaluation of the engine at the failing input.  The reporting
node is a healthy converged secondary with `candidatePriority = 0` and
`replicationQuorum = false`; the primary is converged but unhealthy
(PostgreSQL not running); the lag is within the threshold.  The R4
block of group_state_machine.c has no candidate-priority or
replication-quorum guard, so the engine assigns `prepare_promotion` to
this node, contradicting the claim and spec invariant 5. -/
theorem c1_r4_assigns_prepare_promotion_to_zero_priority_node :
    (AutoFailoverNode.mk 2 0 ReplicationState.secondary
      ReplicationState.secondary 100 0 false NodeHealth.good true 0 0
      0).candidatePriority = 0 ∧
    (AutoFailoverNode.mk 2 0 ReplicationState.secondary
      ReplicationState.secondary 100 0 false NodeHealth.good true 0 0
      0).replicationQuorum = false ∧
    ProceedGroupState
      (MonitorEnv.mk 100000000 0 16777216 16777216 30000 20000 10000)
      (AutoFailoverFormation.mk FormationKind.pgsql)
      [AutoFailoverNode.mk 2 0 ReplicationState.secondary
        ReplicationState.secondary 100 0 false NodeHealth.good true 0 0 0,
       AutoFailoverNode.mk 1 0 ReplicationState.primary
        ReplicationState.primary 100 100 true NodeHealth.good false 0 0 0]
      (AutoFailoverNode.mk 2 0 ReplicationState.secondary
        ReplicationState.secondary 100 0 false NodeHealth.good true 0 0
        0) =
      EngineResult.ok true
        [Assignment.mk 2 ReplicationState.prepare_promotion,
         Assignment.mk 1 ReplicationState.draining] := by
  decide

/-- C2 counterexample: a three-node snapshot satisfying the claim's
precondition (exactly one node, Q, has a primary-like goal state) on
which the invocation produces a second primary-like goal state.  The
reporting node A has converged to `stop_replication`; the scan locates
P by its primary-like REPORTED state (`primary`) although P's goal
state is `demote_timeout` with the drain time expired, so rule R7
fires and assigns `wait_primary` to A while Q keeps `wait_primary`. -/
theorem c2_primary_like_invariant_counterexample :
    primaryLikeGoalCount
      [AutoFailoverNode.mk 1 0 ReplicationState.stop_replication
        ReplicationState.stop_replication 100 100 true NodeHealth.good
        true 0 0 0,
       AutoFailoverNode.mk 2 0 ReplicationState.primary
        ReplicationState.demote_timeout 100 100 true NodeHealth.good
        true 0 0 0,
       AutoFailoverNode.mk 3 0 ReplicationState.secondary
        ReplicationState.wait_primary 100 100 true NodeHealth.good
        true 0 0 0] = 1 ∧
    ProceedGroupState
      (MonitorEnv.mk 100000000 0 16777216 16777216 30000 20000 10000)
      (AutoFailoverFormation.mk FormationKind.pgsql)
      [AutoFailoverNode.mk 1 0 ReplicationState.stop_replication
        ReplicationState.stop_replication 100 100 true NodeHealth.good
        true 0 0 0,
       AutoFailoverNode.mk 2 0 ReplicationState.primary
        ReplicationState.demote_timeout 100 100 true NodeHealth.good
        true 0 0 0,
       AutoFailoverNode.mk 3 0 ReplicationState.secondary
        ReplicationState.wait_primary 100 100 true NodeHealth.good
        true 0 0 0]
      (AutoFailoverNode.mk 1 0 ReplicationState.stop_replication
        ReplicationState.stop_replication 100 100 true NodeHealth.good
        true 0 0 0) =
      EngineResult.ok true
        [Assignment.mk 1 ReplicationState.wait_primary,
         Assignment.mk 2 ReplicationState.demoted] ∧
    primaryLikeGoalCount
      (applyAssignments
        [AutoFailoverNode.mk 1 0 ReplicationState.stop_replication
          ReplicationState.stop_replication 100 100 true NodeHealth.good
          true 0 0 0,
         AutoFailoverNode.mk 2 0 ReplicationState.primary
          ReplicationState.demote_timeout 100 100 true NodeHealth.good
          true 0 0 0,
         AutoFailoverNode.mk 3 0 ReplicationState.secondary
          ReplicationState.wait_primary 100 100 true NodeHealth.good
          true 0 0 0]
        (resultAssignments
          (ProceedGroupState
            (MonitorEnv.mk 100000000 0 16777216 16777216 30000 20000
              10000)
            (AutoFailoverFormation.mk FormationKind.pgsql)
            [AutoFailoverNode.mk 1 0 ReplicationState.stop_replication
              ReplicationState.stop_replication 100 100 true
              NodeHealth.good true 0 0 0,
             AutoFailoverNode.mk 2 0 ReplicationState.primary
              ReplicationState.demote_timeout 100 100 true
              NodeHealth.good true 0 0 0,
             AutoFailoverNode.mk 3 0 ReplicationState.secondary
              ReplicationState.wait_primary 100 100 true NodeHealth.good
              true 0 0 0]
            (AutoFailoverNode.mk 1 0 ReplicationState.stop_replication
              ReplicationState.stop_replication 100 100 true
              NodeHealth.good true 0 0 0)))) = 2 := by
  decide

/-- Witness for C2 (amended): a healthy converged two-node group
satisfies the hypotheses, and the invariant holds after the
invocation. -/
theorem c2_primary_like_invariant_preserved_amended_witness :
    ((AutoFailoverNode.mk 2 0 ReplicationState.secondary
        ReplicationState.secondary 100 100 true NodeHealth.good true 0 0
        0) ∈
        [AutoFailoverNode.mk 1 0 ReplicationState.primary
          ReplicationState.primary 100 100 true NodeHealth.good true 0 0 0,
         AutoFailoverNode.mk 2 0 ReplicationState.secondary
          ReplicationState.secondary 100 100 true NodeHealth.good true 0 0
          0] ∧
      (([AutoFailoverNode.mk 1 0 ReplicationState.primary
          ReplicationState.primary 100 100 true NodeHealth.good true 0 0 0,
         AutoFailoverNode.mk 2 0 ReplicationState.secondary
          ReplicationState.secondary 100 100 true NodeHealth.good true 0 0
          0].map AutoFailoverNode.nodeId).Nodup) ∧
      [AutoFailoverNode.mk 1 0 ReplicationState.primary
        ReplicationState.primary 100 100 true NodeHealth.good true 0 0 0,
       AutoFailoverNode.mk 2 0 ReplicationState.secondary
        ReplicationState.secondary 100 100 true NodeHealth.good true 0 0
        0].countP IsInPrimaryState ≤ 1) ∧
    primaryLikeGoalCount
      (applyAssignments
        [AutoFailoverNode.mk 1 0 ReplicationState.primary
          ReplicationState.primary 100 100 true NodeHealth.good true 0 0 0,
         AutoFailoverNode.mk 2 0 ReplicationState.secondary
          ReplicationState.secondary 100 100 true NodeHealth.good true 0 0
          0]
        (resultAssignments
          (ProceedGroupState
            (MonitorEnv.mk 100000000 0 16777216 16777216 30000 20000
              10000)
            (AutoFailoverFormation.mk FormationKind.pgsql)
            [AutoFailoverNode.mk 1 0 ReplicationState.primary
              ReplicationState.primary 100 100 true NodeHealth.good true
              0 0 0,
             AutoFailoverNode.mk 2 0 ReplicationState.secondary
              ReplicationState.secondary 100 100 true NodeHealth.good
              true 0 0 0]
            (AutoFailoverNode.mk 2 0 ReplicationState.secondary
              ReplicationState.secondary 100 100 true NodeHealth.good
              true 0 0 0)))) ≤ 1 :=
  ⟨⟨by decide, by decide, by decide⟩,
    c2_primary_like_invariant_preserved_amended
      (MonitorEnv.mk 100000000 0 16777216 16777216 30000 20000 10000)
      (AutoFailoverFormation.mk FormationKind.pgsql)
      [AutoFailoverNode.mk 1 0 ReplicationState.primary
        ReplicationState.primary 100 100 true NodeHealth.good true 0 0 0,
       AutoFailoverNode.mk 2 0 ReplicationState.secondary
        ReplicationState.secondary 100 100 true NodeHealth.good true 0 0
        0]
      (AutoFailoverNode.mk 2 0 ReplicationState.secondary
        ReplicationState.secondary 100 100 true NodeHealth.good true 0 0
        0)
      (by decide) (by decide) (by decide)⟩

/-- Witness for C3: the R6 transition fires on a two-node group and
the `stop_replication` assignment comes with the `demote_timeout`
assignment to the located primary. -/
theorem c3_stop_replication_paired_with_demote_timeout_witness :
    (ProceedGroupState
        (MonitorEnv.mk 100000000 0 16777216 16777216 30000 20000 10000)
        (AutoFailoverFormation.mk FormationKind.pgsql)
        [AutoFailoverNode.mk 1 0 ReplicationState.prepare_promotion
          ReplicationState.prepare_promotion 100 100 true NodeHealth.good
          true 0 0 0,
         AutoFailoverNode.mk 2 0 ReplicationState.primary
          ReplicationState.draining 100 100 true NodeHealth.good true 0 0
          0]
        (AutoFailoverNode.mk 1 0 ReplicationState.prepare_promotion
          ReplicationState.prepare_promotion 100 100 true NodeHealth.good
          true 0 0 0) =
      EngineResult.ok true
        [Assignment.mk 1 ReplicationState.stop_replication,
         Assignment.mk 2 ReplicationState.demote_timeout] ∧
      Assignment.mk 1 ReplicationState.stop_replication ∈
        [Assignment.mk 1 ReplicationState.stop_replication,
         Assignment.mk 2 ReplicationState.demote_timeout]) ∧
    ∃ p, GetPrimaryNodeInGroup
        [AutoFailoverNode.mk 1 0 ReplicationState.prepare_promotion
          ReplicationState.prepare_promotion 100 100 true NodeHealth.good
          true 0 0 0,
         AutoFailoverNode.mk 2 0 ReplicationState.primary
          ReplicationState.draining 100 100 true NodeHealth.good true 0 0
          0] = some p ∧
      p ∈ [AutoFailoverNode.mk 1 0 ReplicationState.prepare_promotion
            ReplicationState.prepare_promotion 100 100 true
            NodeHealth.good true 0 0 0,
           AutoFailoverNode.mk 2 0 ReplicationState.primary
            ReplicationState.draining 100 100 true NodeHealth.good true 0
            0 0] ∧
      IsInPrimaryState p = true ∧
      Assignment.mk p.nodeId ReplicationState.demote_timeout ∈
        [Assignment.mk 1 ReplicationState.stop_replication,
         Assignment.mk 2 ReplicationState.demote_timeout] :=
  ⟨⟨by decide, by decide⟩,
    c3_stop_replication_paired_with_demote_timeout
      (MonitorEnv.mk 100000000 0 16777216 16777216 30000 20000 10000)
      (AutoFailoverFormation.mk FormationKind.pgsql)
      [AutoFailoverNode.mk 1 0 ReplicationState.prepare_promotion
        ReplicationState.prepare_promotion 100 100 true NodeHealth.good
        true 0 0 0,
       AutoFailoverNode.mk 2 0 ReplicationState.primary
        ReplicationState.draining 100 100 true NodeHealth.good true 0 0
        0]
      (AutoFailoverNode.mk 1 0 ReplicationState.prepare_promotion
        ReplicationState.prepare_promotion 100 100 true NodeHealth.good
        true 0 0 0)
      true
      [Assignment.mk 1 ReplicationState.stop_replication,
       Assignment.mk 2 ReplicationState.demote_timeout]
      (by decide)
      (Assignment.mk 1 ReplicationState.stop_replication)
      (by decide) rfl⟩

/-- Witness for C4: a two-node group with no primary-like node makes
the engine abort with the error outcome. -/
theorem c4_missing_primary_returns_error_witness :
    (1 < ([AutoFailoverNode.mk 1 0 ReplicationState.demoted
          ReplicationState.demoted 100 100 true NodeHealth.good true 0 0
          0,
         AutoFailoverNode.mk 2 0 ReplicationState.secondary
          ReplicationState.secondary 100 100 true NodeHealth.good true 0
          0 0] : List AutoFailoverNode).length ∧
      IsInPrimaryState
        (AutoFailoverNode.mk 1 0 ReplicationState.demoted
          ReplicationState.demoted 100 100 true NodeHealth.good true 0 0
          0) = false ∧
      GetPrimaryNodeInGroup
        [AutoFailoverNode.mk 1 0 ReplicationState.demoted
          ReplicationState.demoted 100 100 true NodeHealth.good true 0 0
          0,
         AutoFailoverNode.mk 2 0 ReplicationState.secondary
          ReplicationState.secondary 100 100 true NodeHealth.good true 0
          0 0] = none) ∧
    ProceedGroupState
      (MonitorEnv.mk 100000000 0 16777216 16777216 30000 20000 10000)
      (AutoFailoverFormation.mk FormationKind.pgsql)
      [AutoFailoverNode.mk 1 0 ReplicationState.demoted
        ReplicationState.demoted 100 100 true NodeHealth.good true 0 0 0,
       AutoFailoverNode.mk 2 0 ReplicationState.secondary
        ReplicationState.secondary 100 100 true NodeHealth.good true 0 0
        0]
      (AutoFailoverNode.mk 1 0 ReplicationState.demoted
        ReplicationState.demoted 100 100 true NodeHealth.good true 0 0
        0) = EngineResult.error :=
  ⟨⟨by decide, by decide, by decide⟩,
    (c4_missing_primary_returns_error
      (MonitorEnv.mk 100000000 0 16777216 16777216 30000 20000 10000)
      (AutoFailoverFormation.mk FormationKind.pgsql)
      [AutoFailoverNode.mk 1 0 ReplicationState.demoted
        ReplicationState.demoted 100 100 true NodeHealth.good true 0 0 0,
       AutoFailoverNode.mk 2 0 ReplicationState.secondary
        ReplicationState.secondary 100 100 true NodeHealth.good true 0 0
        0]
      (AutoFailoverNode.mk 1 0 ReplicationState.demoted
        ReplicationState.demoted 100 100 true NodeHealth.good true 0 0 0)
      (by decide) (by decide) (by decide)).1⟩

/-- Witness for C5: the spec's two-standby scenario S5.  The primary P
reports; S1 is an unhealthy converged secondary (quorum true, priority
100), S2 is a non-candidate (quorum false, priority 0); the loop
assigns S1 → catchingup and P → wait_primary. -/
theorem c5_r12_loop_characterization_witness :
    (IsCurrentState
        (AutoFailoverNode.mk 1 0 ReplicationState.primary
          ReplicationState.primary 100 100 true NodeHealth.good true 0 0
          0) ReplicationState.primary = true ∧
      ([AutoFailoverNode.mk 1 0 ReplicationState.primary
          ReplicationState.primary 100 100 true NodeHealth.good true 0 0
          0,
        AutoFailoverNode.mk 2 0 ReplicationState.secondary
          ReplicationState.secondary 100 100 true NodeHealth.bad false 0
          0 0,
        AutoFailoverNode.mk 3 0 ReplicationState.secondary
          ReplicationState.secondary 100 0 false NodeHealth.good true 0 0
          0] : List AutoFailoverNode).length ≠ 1 ∧
      ∀ o ∈ AutoFailoverOtherNodesList
          [AutoFailoverNode.mk 1 0 ReplicationState.primary
            ReplicationState.primary 100 100 true NodeHealth.good true 0
            0 0,
           AutoFailoverNode.mk 2 0 ReplicationState.secondary
            ReplicationState.secondary 100 100 true NodeHealth.bad false
            0 0 0,
           AutoFailoverNode.mk 3 0 ReplicationState.secondary
            ReplicationState.secondary 100 0 false NodeHealth.good true 0
            0 0]
          (AutoFailoverNode.mk 1 0 ReplicationState.primary
            ReplicationState.primary 100 100 true NodeHealth.good true 0
            0 0),
        IsCurrentState o ReplicationState.wait_standby = false) ∧
    ProceedGroupState
      (MonitorEnv.mk 100000000 0 16777216 16777216 30000 20000 10000)
      (AutoFailoverFormation.mk FormationKind.pgsql)
      [AutoFailoverNode.mk 1 0 ReplicationState.primary
        ReplicationState.primary 100 100 true NodeHealth.good true 0 0 0,
       AutoFailoverNode.mk 2 0 ReplicationState.secondary
        ReplicationState.secondary 100 100 true NodeHealth.bad false 0 0
        0,
       AutoFailoverNode.mk 3 0 ReplicationState.secondary
        ReplicationState.secondary 100 0 false NodeHealth.good true 0 0
        0]
      (AutoFailoverNode.mk 1 0 ReplicationState.primary
        ReplicationState.primary 100 100 true NodeHealth.good true 0 0
        0) =
      EngineResult.ok true
        [Assignment.mk 2 ReplicationState.catchingup,
         Assignment.mk 1 ReplicationState.wait_primary] :=
  ⟨⟨by decide, by decide, by decide⟩,
    ((c5_r12_loop_characterization
      (MonitorEnv.mk 100000000 0 16777216 16777216 30000 20000 10000)
      (AutoFailoverFormation.mk FormationKind.pgsql)
      [AutoFailoverNode.mk 1 0 ReplicationState.primary
        ReplicationState.primary 100 100 true NodeHealth.good true 0 0 0,
       AutoFailoverNode.mk 2 0 ReplicationState.secondary
        ReplicationState.secondary 100 100 true NodeHealth.bad false 0 0
        0,
       AutoFailoverNode.mk 3 0 ReplicationState.secondary
        ReplicationState.secondary 100 0 false NodeHealth.good true 0 0
        0]
      (AutoFailoverNode.mk 1 0 ReplicationState.primary
        ReplicationState.primary 100 100 true NodeHealth.good true 0 0 0)
      (by decide) (by decide) (by decide)).1).trans (by decide)⟩

/-- Witness for C8: with a converged `catchingup` node in the group
while R6 fires for the reporting node, the `catchingup` node is not
assigned `stop_replication`. -/
theorem c8_stop_replication_requires_prepare_promotion_witness :
    ((AutoFailoverNode.mk 1 0 ReplicationState.prepare_promotion
        ReplicationState.prepare_promotion 100 100 true NodeHealth.good
        true 0 0 0) ∈
        [AutoFailoverNode.mk 1 0 ReplicationState.prepare_promotion
          ReplicationState.prepare_promotion 100 100 true NodeHealth.good
          true 0 0 0,
         AutoFailoverNode.mk 2 0 ReplicationState.primary
          ReplicationState.draining 100 100 true NodeHealth.good true 0 0
          0,
         AutoFailoverNode.mk 3 0 ReplicationState.catchingup
          ReplicationState.catchingup 100 100 true NodeHealth.good true 0
          0 0] ∧
      (([AutoFailoverNode.mk 1 0 ReplicationState.prepare_promotion
          ReplicationState.prepare_promotion 100 100 true NodeHealth.good
          true 0 0 0,
         AutoFailoverNode.mk 2 0 ReplicationState.primary
          ReplicationState.draining 100 100 true NodeHealth.good true 0 0
          0,
         AutoFailoverNode.mk 3 0 ReplicationState.catchingup
          ReplicationState.catchingup 100 100 true NodeHealth.good true 0
          0 0].map AutoFailoverNode.nodeId).Nodup) ∧
      IsCurrentState
        (AutoFailoverNode.mk 3 0 ReplicationState.catchingup
          ReplicationState.catchingup 100 100 true NodeHealth.good true 0
          0 0) ReplicationState.catchingup = true) ∧
    Assignment.mk 3 ReplicationState.stop_replication ∉
      resultAssignments
        (ProceedGroupState
          (MonitorEnv.mk 100000000 0 16777216 16777216 30000 20000 10000)
          (AutoFailoverFormation.mk FormationKind.pgsql)
          [AutoFailoverNode.mk 1 0 ReplicationState.prepare_promotion
            ReplicationState.prepare_promotion 100 100 true
            NodeHealth.good true 0 0 0,
           AutoFailoverNode.mk 2 0 ReplicationState.primary
            ReplicationState.draining 100 100 true NodeHealth.good true 0
            0 0,
           AutoFailoverNode.mk 3 0 ReplicationState.catchingup
            ReplicationState.catchingup 100 100 true NodeHealth.good true
            0 0 0]
          (AutoFailoverNode.mk 1 0 ReplicationState.prepare_promotion
            ReplicationState.prepare_promotion 100 100 true
            NodeHealth.good true 0 0 0)) :=
  ⟨⟨by decide, by decide, by decide⟩,
    (c8_stop_replication_requires_prepare_promotion
      (MonitorEnv.mk 100000000 0 16777216 16777216 30000 20000 10000)
      (AutoFailoverFormation.mk FormationKind.pgsql)
      [AutoFailoverNode.mk 1 0 ReplicationState.prepare_promotion
        ReplicationState.prepare_promotion 100 100 true NodeHealth.good
        true 0 0 0,
       AutoFailoverNode.mk 2 0 ReplicationState.primary
        ReplicationState.draining 100 100 true NodeHealth.good true 0 0
        0,
       AutoFailoverNode.mk 3 0 ReplicationState.catchingup
        ReplicationState.catchingup 100 100 true NodeHealth.good true 0 0
        0]
      (AutoFailoverNode.mk 1 0 ReplicationState.prepare_promotion
        ReplicationState.prepare_promotion 100 100 true NodeHealth.good
        true 0 0 0)
      (by decide) (by decide)).2
      (AutoFailoverNode.mk 3 0 ReplicationState.catchingup
        ReplicationState.catchingup 100 100 true NodeHealth.good true 0 0
        0)
      (by decide) (by decide)⟩

/-- Witness for C10: a primary whose single standby is a healthy
quorum candidate gets the true return with an empty assignment
list. -/
theorem c10_primary_report_returns_true_witness :
    (IsCurrentState
        (AutoFailoverNode.mk 1 0 ReplicationState.primary
          ReplicationState.primary 100 100 true NodeHealth.good true 0 0
          0) ReplicationState.primary = true ∧
      ([AutoFailoverNode.mk 1 0 ReplicationState.primary
          ReplicationState.primary 100 100 true NodeHealth.good true 0 0
          0,
        AutoFailoverNode.mk 2 0 ReplicationState.secondary
          ReplicationState.secondary 100 100 true NodeHealth.good true 0
          0 0] : List AutoFailoverNode).length ≠ 1 ∧
      ∀ o ∈ AutoFailoverOtherNodesList
          [AutoFailoverNode.mk 1 0 ReplicationState.primary
            ReplicationState.primary 100 100 true NodeHealth.good true 0
            0 0,
           AutoFailoverNode.mk 2 0 ReplicationState.secondary
            ReplicationState.secondary 100 100 true NodeHealth.good true
            0 0 0]
          (AutoFailoverNode.mk 1 0 ReplicationState.primary
            ReplicationState.primary 100 100 true NodeHealth.good true 0
            0 0),
        IsCurrentState o ReplicationState.wait_standby = false) ∧
    ProceedGroupState
      (MonitorEnv.mk 100000000 0 16777216 16777216 30000 20000 10000)
      (AutoFailoverFormation.mk FormationKind.pgsql)
      [AutoFailoverNode.mk 1 0 ReplicationState.primary
        ReplicationState.primary 100 100 true NodeHealth.good true 0 0 0,
       AutoFailoverNode.mk 2 0 ReplicationState.secondary
        ReplicationState.secondary 100 100 true NodeHealth.good true 0 0
        0]
      (AutoFailoverNode.mk 1 0 ReplicationState.primary
        ReplicationState.primary 100 100 true NodeHealth.good true 0 0
        0) = EngineResult.ok true [] :=
  ⟨⟨by decide, by decide, by decide⟩,
    (c10_primary_report_returns_true
      (MonitorEnv.mk 100000000 0 16777216 16777216 30000 20000 10000)
      (AutoFailoverFormation.mk FormationKind.pgsql)
      [AutoFailoverNode.mk 1 0 ReplicationState.primary
        ReplicationState.primary 100 100 true NodeHealth.good true 0 0 0,
       AutoFailoverNode.mk 2 0 ReplicationState.secondary
        ReplicationState.secondary 100 100 true NodeHealth.good true 0 0
        0]
      (AutoFailoverNode.mk 1 0 ReplicationState.primary
        ReplicationState.primary 100 100 true NodeHealth.good true 0 0 0)
      (by decide) (by decide) (by decide)).trans (by decide)⟩

end PgAutoFailover
